/- Verification of the warm-starting utilities for TF.Learn Estimators
   (tensorflow/python/estimator/warm_starting_util.py).

   The file embeds the Python module shallowly: vocabulary files are lists of
   token lines, checkpoint matrices are lists of integer rows, and the
   stateful assignment performed by the module is represented by the list of
   assignments (or actions) the pass would perform.  Collaborators that live
   outside this module (checkpoint_ops, saver.BaseSaverBuilder.OpListToDict,
   ops.get_collection, regex matching) are modelled from the specification and
   marked as such in their doc comments. -/
import Mathlib

namespace WarmStartingUtil

/-! ## Vocabulary remapping core

The functions below model `checkpoint_ops._load_and_remap_matrix_initializer`
as invoked by `_warmstart_var_with_vocab` (row remapping only: the caller
passes no column vocabularies and zero column OOV buckets). -/

/-- Modelled from the spec: VocabIndex.load — a vocabulary file is an ordered
list of token lines, capped at `sizeCap` entries, or used whole when the cap
is `-1` (any negative cap means "use all"). -/
def loadVocab (lines : List String) (sizeCap : Int) : List String :=
  if sizeCap < 0 then lines else lines.take sizeCap.toNat

/-- Modelled from the spec: the backup row used for entries with no source in
the old vocabulary — the output of the backup initializer for the requested
row width, or all zeros when no backup initializer is supplied. -/
def backupRow (cols : Nat) (backup : Option (Nat → List Int)) : List Int :=
  match backup with
  | some f => f cols
  | none => List.replicate cols 0

/-- Modelled from the spec: RowRemapper.build_plan — one entry per new row;
position `j < newIdx.length` looks up token `newIdx[j]` in the old index
(first occurrence wins), and the `numOovBuckets` out-of-vocabulary positions
after the new vocabulary always have no source. -/
def buildPlan (oldIdx newIdx : List String) (numOovBuckets : Nat) :
    List (Option Nat) :=
  newIdx.map (fun t => oldIdx.findIdx? (fun s => s = t))
    ++ List.replicate numOovBuckets none

/-- Modelled from the spec: one output row of MatrixInitializer.materialize —
a plan entry `some i` copies row `i` of the old checkpoint matrix (callers
guarantee the row exists), a plan entry `none` takes the backup row. -/
def materializeRow (oldMatrix : List (List Int)) (cols : Nat)
    (backup : Option (Nat → List Int)) : Option Nat → List Int
  | some i => oldMatrix.getD i (List.replicate cols 0)
  | none => backupRow cols backup

/-- Modelled from the spec: MatrixInitializer.materialize over the partition
window `[lo, hi)` of the remap plan. -/
def materialize (plan : List (Option Nat)) (oldMatrix : List (List Int))
    (cols : Nat) (backup : Option (Nat → List Int)) (lo hi : Nat) :
    List (List Int) :=
  ((plan.drop lo).take (hi - lo)).map (materializeRow oldMatrix cols backup)

/-- Modelled from the spec: `checkpoint_ops._load_and_remap_matrix_initializer`
restricted to the arguments `_warmstart_var_with_vocab` passes (row remapping
only), materializing the partition window `[lo, hi)`. -/
def loadAndRemapMatrix (oldMatrix : List (List Int)) (cols : Nat)
    (oldVocabLines newVocabLines : List String)
    (oldRowVocabSize : Int) (newRowVocabSize : Nat) (numOovBuckets : Nat)
    (backup : Option (Nat → List Int)) (lo hi : Nat) : List (List Int) :=
  materialize
    (buildPlan (loadVocab oldVocabLines oldRowVocabSize)
      (loadVocab newVocabLines (Int.ofNat newRowVocabSize)) numOovBuckets)
    oldMatrix cols backup lo hi

theorem loadVocab_neg_one (lines : List String) : loadVocab lines (-1) = lines := by
  simp [loadVocab]

theorem loadVocab_ofNat (lines : List String) (n : Nat) :
    loadVocab lines (Int.ofNat n) = lines.take n := by
  simp [loadVocab]

theorem loadVocab_self_length (lines : List String) :
    loadVocab lines (Int.ofNat lines.length) = lines := by
  rw [loadVocab_ofNat, List.take_length]

theorem buildPlan_length (oldIdx newIdx : List String) (oov : Nat) :
    (buildPlan oldIdx newIdx oov).length = newIdx.length + oov := by
  simp [buildPlan]

theorem buildPlan_getElem_vocab (oldIdx newIdx : List String) (oov : Nat)
    (j : Nat) (t : String) (ht : newIdx[j]? = some t) :
    (buildPlan oldIdx newIdx oov)[j]? =
      some (oldIdx.findIdx? (fun s => s = t)) := by
  have hj : j < newIdx.length := by
    rcases List.getElem?_eq_some.mp ht with ⟨h, _⟩
    exact h
  unfold buildPlan
  rw [List.getElem?_append_left (by simpa using hj), List.getElem?_map, ht]
  rfl

theorem buildPlan_getElem_oov (oldIdx newIdx : List String) (oov : Nat)
    (j : Nat) (h1 : newIdx.length ≤ j) (h2 : j < newIdx.length + oov) :
    (buildPlan oldIdx newIdx oov)[j]? = some none := by
  unfold buildPlan
  rw [List.getElem?_append]
  simp only [List.length_map]
  rw [if_neg (by omega)]
  rw [List.getElem?_replicate, if_pos (by omega)]

theorem materialize_full_getElem (plan : List (Option Nat))
    (oldM : List (List Int)) (cols : Nat) (backup : Option (Nat → List Int))
    (j : Nat) :
    (materialize plan oldM cols backup 0 plan.length)[j]? =
      (plan[j]?).map (materializeRow oldM cols backup) := by
  unfold materialize
  rw [List.drop_zero, Nat.sub_zero, List.take_length, List.getElem?_map]

/-! ## Data model: _VocabInfo and _WarmStartSettings -/

/-- Embeds the `_VocabInfo` namedtuple.  The two vocabulary fields hold paths
to vocabulary files; sizes are Python ints. -/
structure VocabInfo where
  new_vocab : String
  new_vocab_size : Int
  num_oov_buckets : Nat
  old_vocab : String
  old_vocab_size : Int
  backup_init : Option (Nat → List Int)

/-- Embeds `_VocabInfo.__new__` with all six arguments supplied. -/
def mkVocabInfo (new_vocab : String) (new_vocab_size : Int)
    (num_oov_buckets : Nat) (old_vocab : String) (old_vocab_size : Int)
    (backup_init : Option (Nat → List Int)) : VocabInfo :=
  ⟨new_vocab, new_vocab_size, num_oov_buckets, old_vocab, old_vocab_size,
    backup_init⟩

/-- Embeds `_VocabInfo.__new__` with `old_vocab_size` and `backup_initializer`
left at their declared defaults (`-1` and `None`). -/
def mkVocabInfoDefault (new_vocab : String) (new_vocab_size : Int)
    (num_oov_buckets : Nat) (old_vocab : String) : VocabInfo :=
  mkVocabInfo new_vocab new_vocab_size num_oov_buckets old_vocab (-1) none

/-! ## Claims about the vocabulary remapping (C1, C3, C4, C5, C7) -/

/-- Claim C1: for every old vocabulary, new vocabulary, and token `t` present
in both, the warm-started matrix's row at `t`'s position in the new vocabulary
equals the old checkpoint matrix's row at `t`'s (first) position in the old
vocabulary, for any relative reordering of tokens; when `t` is duplicated in
the old vocabulary its first occurrence wins (`findIdx?`). -/
theorem remap_row_of_common_token
    (oldV newV : List String) (t : String) (oldM : List (List Int))
    (cols oov j i : Nat) (backup : Option (Nat → List Int))
    (hj : newV[j]? = some t)
    (hi : oldV.findIdx? (fun s => s = t) = some i)
    (hrow : i < oldM.length) :
    (loadAndRemapMatrix oldM cols oldV newV (-1) newV.length oov backup
        0 (newV.length + oov))[j]? = oldM[i]? := by
  unfold loadAndRemapMatrix
  rw [loadVocab_neg_one, loadVocab_self_length]
  have hfull := materialize_full_getElem (buildPlan oldV newV oov) oldM cols backup j
  rw [buildPlan_length] at hfull
  rw [hfull, buildPlan_getElem_vocab oldV newV oov j t hj, hi]
  have hget : oldM[i]? = some oldM[i] := List.getElem?_eq_getElem hrow
  simp [materializeRow, List.getD_eq_getElem?_getD, hget]

theorem remap_row_of_common_token_witness :
    (["b", "a"] : List String)[0]? = some "b" ∧
    (["a", "b"] : List String).findIdx? (fun s => s = "b") = some 1 ∧
    1 < ([[1], [2]] : List (List Int)).length ∧
    (loadAndRemapMatrix [[1], [2]] 1 ["a", "b"] ["b", "a"] (-1) 2 1 none 0 3)[0]?
      = ([[1], [2]] : List (List Int))[1]? :=
  ⟨by decide, by decide, by decide,
    remap_row_of_common_token ["a", "b"] ["b", "a"] "b" [[1], [2]] 1 1 0 1 none
      (by decide) (by decide) (by decide)⟩

/-- Claim C3: the concrete scenario — old vocab ["a","b","c"] with rows
[1],[2],[3], new vocab ["c","a","d"], one OOV bucket, no backup — yields
[[3],[1],[0],[0]], the rows for token "d" and for the OOV bucket all-zero. -/
theorem remap_concrete_scenario :
    loadAndRemapMatrix [[1], [2], [3]] 1 ["a", "b", "c"] ["c", "a", "d"] (-1) 3 1
      none 0 4 = [[3], [1], [0], [0]] := by decide

/-- Claim C4: a row whose token appears only in the new vocabulary, and every
row in the OOV bucket range, equals the backup initializer's output — which is
all-zeros when no backup initializer is supplied; OOV rows are never copied
from the old matrix. -/
theorem remap_missing_and_oov_rows_use_backup
    (oldV newV : List String) (oldM : List (List Int)) (cols oov : Nat)
    (backup : Option (Nat → List Int)) :
    (∀ (j : Nat) (t : String), newV[j]? = some t → t ∉ oldV →
      (loadAndRemapMatrix oldM cols oldV newV (-1) newV.length oov backup
          0 (newV.length + oov))[j]? = some (backupRow cols backup)) ∧
    (∀ j : Nat, newV.length ≤ j → j < newV.length + oov →
      (loadAndRemapMatrix oldM cols oldV newV (-1) newV.length oov backup
          0 (newV.length + oov))[j]? = some (backupRow cols backup)) ∧
    backupRow cols none = List.replicate cols 0 := by
  refine ⟨?_, ?_, rfl⟩
  · intro j t hj ht
    unfold loadAndRemapMatrix
    rw [loadVocab_neg_one, loadVocab_self_length]
    have hfull := materialize_full_getElem (buildPlan oldV newV oov) oldM cols backup j
    rw [buildPlan_length] at hfull
    rw [hfull, buildPlan_getElem_vocab oldV newV oov j t hj]
    have hnone : oldV.findIdx? (fun s => s = t) = none := by
      rw [List.findIdx?_eq_none_iff]
      intro x hx
      simp only [decide_eq_false_iff_not]
      rintro rfl
      exact ht hx
    rw [hnone]
    rfl
  · intro j h1 h2
    unfold loadAndRemapMatrix
    rw [loadVocab_neg_one, loadVocab_self_length]
    have hfull := materialize_full_getElem (buildPlan oldV newV oov) oldM cols backup j
    rw [buildPlan_length] at hfull
    rw [hfull, buildPlan_getElem_oov oldV newV oov j h1 h2]
    rfl

theorem remap_missing_and_oov_rows_use_backup_witness :
    ((["d"] : List String)[0]? = some "d" ∧ "d" ∉ (["a"] : List String) ∧
      (loadAndRemapMatrix [[5]] 1 ["a"] ["d"] (-1) 1 1 none 0 2)[0]?
        = some (backupRow 1 none)) ∧
    (1 ≤ 1 ∧ 1 < 1 + 1 ∧
      (loadAndRemapMatrix [[5]] 1 ["a"] ["d"] (-1) 1 1 none 0 2)[1]?
        = some (backupRow 1 none)) :=
  ⟨⟨by decide, by decide,
      (remap_missing_and_oov_rows_use_backup ["a"] ["d"] [[5]] 1 1 none).1 0 "d"
        (by decide) (by decide)⟩,
    ⟨by decide, by decide,
      (remap_missing_and_oov_rows_use_backup ["a"] ["d"] [[5]] 1 1 none).2.1 1
        (by decide) (by decide)⟩⟩

/-- Claim C5: `old_vocab_size = -1` (the `_VocabInfo.__new__` default) uses
every line of the old vocabulary file, `old_vocab_size = N` uses only the
first `N` entries, and a token whose first occurrence in the old vocabulary
file is at position `≥ N` is treated as absent: its new row falls back to the
backup initializer. -/
theorem old_vocab_size_truncates
    (v newV : List String) (N : Nat) (t : String) (i j : Nat)
    (oldM : List (List Int)) (cols oov : Nat)
    (backup : Option (Nat → List Int)) (nvp ovp : String) (nvs : Int)
    (noov : Nat) :
    loadVocab v (-1) = v ∧
    (mkVocabInfoDefault nvp nvs noov ovp).old_vocab_size = -1 ∧
    loadVocab v (Int.ofNat N) = v.take N ∧
    (newV[j]? = some t → v.findIdx? (fun s => s = t) = some i → N ≤ i →
      (loadAndRemapMatrix oldM cols v newV (Int.ofNat N) newV.length oov backup
          0 (newV.length + oov))[j]? = some (backupRow cols backup)) := by
  refine ⟨loadVocab_neg_one v, rfl, loadVocab_ofNat v N, ?_⟩
  intro hj hi hNi
  unfold loadAndRemapMatrix
  rw [loadVocab_ofNat, loadVocab_self_length]
  have hfull := materialize_full_getElem (buildPlan (v.take N) newV oov) oldM
    cols backup j
  rw [buildPlan_length] at hfull
  rw [hfull, buildPlan_getElem_vocab (v.take N) newV oov j t hj]
  have hnone : (v.take N).findIdx? (fun s => s = t) = none := by
    rw [List.findIdx?_take, hi]
    simp only [Option.guard, Option.some_bind]
    rw [if_neg (by omega)]
  rw [hnone]
  rfl

theorem old_vocab_size_truncates_witness :
    (["b"] : List String)[0]? = some "b" ∧
    (["a", "b"] : List String).findIdx? (fun s => s = "b") = some 1 ∧
    1 ≤ 1 ∧
    (loadAndRemapMatrix [[7], [9]] 1 ["a", "b"] ["b"] (Int.ofNat 1) 1 0 none
        0 1)[0]? = some (backupRow 1 none) :=
  ⟨by decide, by decide, by decide,
    (old_vocab_size_truncates ["a", "b"] ["b"] 1 "b" 1 0 [[7], [9]] 1 0 none
        "nv" "ov" 1 0).2.2.2 (by decide) (by decide) (by decide)⟩

/-- Claim C7: for adjacent partition windows `[a,b)` and `[b,c)`, each
partition receives exactly the rows of its own offset window of the one-pass
materialization, and concatenating the two partitions equals materializing
the window `[a,c)` in one pass with the same settings. -/
theorem partitioned_remap_windows
    (oldM : List (List Int)) (cols : Nat) (oldV newV : List String)
    (osz : Int) (nsz oov : Nat) (backup : Option (Nat → List Int))
    (a b c : Nat) (hab : a ≤ b) (hbc : b ≤ c) (hn : nsz ≤ newV.length) :
    loadAndRemapMatrix oldM cols oldV newV osz nsz oov backup a b
        ++ loadAndRemapMatrix oldM cols oldV newV osz nsz oov backup b c
      = loadAndRemapMatrix oldM cols oldV newV osz nsz oov backup a c ∧
    loadAndRemapMatrix oldM cols oldV newV osz nsz oov backup a b
      = ((loadAndRemapMatrix oldM cols oldV newV osz nsz oov backup 0
            (nsz + oov)).drop a).take (b - a) := by
  constructor
  · unfold loadAndRemapMatrix materialize
    rw [← List.map_append]
    congr 1
    have h1 : c - a = (b - a) + (c - b) := by omega
    rw [h1, List.take_add]
    congr 1
    rw [List.drop_drop]
    have hba : a + (b - a) = b := by omega
    rw [hba]
  · unfold loadAndRemapMatrix materialize
    rw [List.drop_zero, Nat.sub_zero]
    have hplen : (buildPlan (loadVocab oldV osz)
        (loadVocab newV (Int.ofNat nsz)) oov).length = nsz + oov := by
      rw [buildPlan_length, loadVocab_ofNat, List.length_take]
      omega
    rw [← hplen, List.take_length, List.map_take, List.map_drop]

theorem partitioned_remap_windows_witness :
    (0 ≤ 2 ∧ 2 ≤ 4 ∧ 4 ≤ (["d", "c", "b", "a"] : List String).length) ∧
    (loadAndRemapMatrix [[1], [2], [3], [4]] 1 ["a", "b", "c", "d"]
          ["d", "c", "b", "a"] (-1) 4 0 none 0 2
        ++ loadAndRemapMatrix [[1], [2], [3], [4]] 1 ["a", "b", "c", "d"]
          ["d", "c", "b", "a"] (-1) 4 0 none 2 4
      = loadAndRemapMatrix [[1], [2], [3], [4]] 1 ["a", "b", "c", "d"]
          ["d", "c", "b", "a"] (-1) 4 0 none 0 4) ∧
    loadAndRemapMatrix [[1], [2], [3], [4]] 1 ["a", "b", "c", "d"]
        ["d", "c", "b", "a"] (-1) 4 0 none 0 2
      = ((loadAndRemapMatrix [[1], [2], [3], [4]] 1 ["a", "b", "c", "d"]
            ["d", "c", "b", "a"] (-1) 4 0 none 0 4).drop 0).take 2 :=
  ⟨⟨by decide, by decide, by decide⟩,
    (partitioned_remap_windows [[1], [2], [3], [4]] 1 ["a", "b", "c", "d"]
        ["d", "c", "b", "a"] (-1) 4 0 none 0 2 4 (by decide) (by decide)
        (by decide)).1,
    (partitioned_remap_windows [[1], [2], [3], [4]] 1 ["a", "b", "c", "d"]
        ["d", "c", "b", "a"] (-1) 4 0 none 0 2 4 (by decide) (by decide)
        (by decide)).2⟩

/-! ## Variables, name inference, warm-start functions and the orchestrator -/

/-- A trainable variable (or one slice of a partitioned variable) of the
current graph: its logical ("full") variable name, its shape, and — for a
partition slice — the row offset of the slice within the full variable. -/
structure TfVariable where
  name : String
  numRows : Nat
  numCols : Nat
  sliceOffset : Option Nat
deriving DecidableEq

/-- Modelled from the spec: the keys of `saver.BaseSaverBuilder.OpListToDict`
— the distinct logical variable names of a list of variables/slices (slices
of the same logical parameter share one key). -/
def opListToDictKeys : List TfVariable → List String
  | [] => []
  | v :: vs =>
    let rest := opListToDictKeys vs
    if v.name ∈ rest then rest else v.name :: rest

/-- The errors the module raises. -/
inductive WsError where
  | valueError (msg : String)
  | typeError (msg : String)
  | indexError
deriving DecidableEq

/-- Embeds `_infer_var_name`: builds the name-to-variable dictionary and
raises a TypeError when it has more than one key; asking for the first key of
an empty dictionary is Python's IndexError. -/
def inferVarName (var : List TfVariable) : Except WsError String :=
  let keys := opListToDictKeys var
  if keys.length > 1 then
    .error (.typeError "var passed as arg violates the constraints")
  else
    match keys with
    | [] => .error .indexError
    | k :: _ => .ok k

/-- Embeds `_warmstart_var`: resolves the previous tensor name — falling back
to the variable's own inferred name when the given name is None or empty
(Python falsiness) — and records the `init_from_checkpoint` request as the
pair (checkpoint, tensor name looked up). -/
def warmstartVar (var : List TfVariable) (prevCkpt : String)
    (prevTensorName : Option String) : Except WsError (String × String) :=
  (inferVarName var).map (fun currentVarName =>
    (prevCkpt,
      match prevTensorName with
      | none => currentVarName
      | some s => if s = "" then currentVarName else s))

/-- Modelled from the spec: the external readers — a vocabulary file's lines
by path, and a checkpoint tensor's rows by checkpoint path and tensor name. -/
structure CkptEnv where
  readVocabFile : String → List String
  readCkptMatrix : String → String → List (List Int)

/-- The partition window of one variable: rows
`[sliceOffset, sliceOffset + numRows)` of the full variable, or
`[0, numRows)` when the variable carries no save-slice info. -/
def sliceWindow (v : TfVariable) : Nat × Nat :=
  match v.sliceOffset with
  | none => (0, v.numRows)
  | some off => (off, off + v.numRows)

/-- The previous-tensor-name resolution of `_warmstart_var_with_vocab`: a
None or empty name falls back to the inferred name of the variable. -/
def resolvePrevTensorName (prevTensorName : Option String)
    (var : List TfVariable) : Except WsError String :=
  match prevTensorName with
  | none => inferVarName var
  | some s => if s = "" then inferVarName var else .ok s

/-- Embeds `_warmstart_var_with_vocab`: validates the four required arguments
first (so an error means no assignment at all was computed), resolves the
previous tensor name, and produces — for every slice of `var` — the new
initial value assigned to it, obtained by remapping the slice's own partition
window. -/
def warmstartVarWithVocab (env : CkptEnv) (var : List TfVariable)
    (currentVocabPath : String) (currentVocabSize : Int) (prevCkpt : String)
    (prevVocabPath : String) (previousVocabSize : Int)
    (currentOovBuckets : Nat) (prevTensorName : Option String)
    (backup : Option (Nat → List Int)) :
    Except WsError (List (String × List (List Int))) :=
  if currentVocabPath = "" ∨ currentVocabSize = 0 ∨ prevCkpt = "" ∨
      prevVocabPath = "" then
    .error (.valueError
      "Invalid args: Must provide all of current_vocab_path, current_vocab_size, prev_ckpt, prev_vocab_path.")
  else
    (resolvePrevTensorName prevTensorName var).map (fun tensorName =>
      let oldMatrix := env.readCkptMatrix prevCkpt tensorName
      var.map (fun v =>
        (v.name,
          loadAndRemapMatrix oldMatrix v.numCols
            (env.readVocabFile prevVocabPath)
            (env.readVocabFile currentVocabPath) previousVocabSize
            currentVocabSize.toNat currentOovBuckets backup
            (sliceWindow v).1 (sliceWindow v).2)))

/-- Embeds the `_WarmStartSettings` namedtuple (after `__new__` has applied
its defaults). -/
structure WarmStartSettings where
  ckpt_to_initialize_from : String
  vars_to_warmstart : Option String
  var_name_to_vocab_info : List (String × VocabInfo)
  var_name_to_prev_var_name : List (String × String)

/-- Embeds `_WarmStartSettings.__new__`: an absent (None) or empty checkpoint
path raises a ValueError before any settings object exists; absent mappings
default to empty. -/
def mkWarmStartSettings (ckpt : Option String) (sel : Option String)
    (vocab : Option (List (String × VocabInfo)))
    (prev : Option (List (String × String))) :
    Except WsError WarmStartSettings :=
  if ckpt = none ∨ ckpt = some "" then
    .error (.valueError "ckpt_to_initialize_from MUST be set in WarmStartSettings")
  else
    .ok ⟨ckpt.getD "", sel, vocab.getD [], prev.getD []⟩

/-- Python truthiness of the optional selector string: None and the empty
string are falsy. -/
def optStrTruthy : Option String → Bool
  | none => false
  | some s => !(s == "")

/-- Modelled from the spec: the regex matching used by the variable
collection (`re.match` semantics) restricted to literal patterns, where it is
prefix matching. -/
def literalReMatch (pat name : String) : Bool :=
  pat.data.isPrefixOf name.data

/-- Modelled from the spec: `ops.get_collection(TRAINABLE_VARIABLES, scope)`
— a None scope returns the whole trainable collection, a string scope keeps
exactly the variables whose name the regex matches (the matcher is a
parameter of the model). -/
def getCollection (trainableVars : List TfVariable) (scope : Option String)
    (reMatch : String → String → Bool) : List TfVariable :=
  match scope with
  | none => trainableVars
  | some s => trainableVars.filter (fun v => reMatch s v.name)

/-- The distinct inferred variable names of the collected variables, in the
order Python's grouping dict acquires its keys. -/
def groupKeys (vs : List TfVariable) : List String :=
  vs.foldl (fun acc v => if v.name ∈ acc then acc else acc ++ [v.name]) []

/-- Embeds the grouping loop of `_warmstart`: variables grouped by inferred
logical name (each collected variable is a single variable or one slice, so
its inferred name is its `name` field). -/
def groupVariables (vs : List TfVariable) : List (String × List TfVariable) :=
  (groupKeys vs).map (fun n => (n, vs.filter (fun v => v.name = n)))

/-- One warm-start action of the orchestrator: a vocabulary remap of a
variable group, or a plain checkpoint restore of it. -/
inductive WsAction where
  | vocabRemap (varName : String) (group : List TfVariable) (info : VocabInfo)
      (prevName : Option String)
  | plainRestore (varName : String) (group : List TfVariable)
      (prevName : Option String)

/-- The logical variable name an action touches. -/
def WsAction.varName : WsAction → String
  | .vocabRemap n _ _ _ => n
  | .plainRestore n _ _ => n

/-- Embeds `_warmstart`: collect the trainable variables matching the
selector, group them by inferred name, and emit — per logical variable — a
vocabulary remap when a `_VocabInfo` entry exists, a plain restore when none
exists and the selector is truthy, and nothing at all otherwise. -/
def warmstartActions (settings : WarmStartSettings)
    (trainableVars : List TfVariable) (reMatch : String → String → Bool) :
    List WsAction :=
  (groupVariables
    (getCollection trainableVars settings.vars_to_warmstart reMatch)).flatMap
    (fun p =>
      let prevVarName := settings.var_name_to_prev_var_name.lookup p.1
      match settings.var_name_to_vocab_info.lookup p.1 with
      | some vi => [WsAction.vocabRemap p.1 p.2 vi prevVarName]
      | none =>
        if optStrTruthy settings.vars_to_warmstart then
          [WsAction.plainRestore p.1 p.2 prevVarName]
        else [])

/-! ## Supporting lemmas for the orchestrator -/

theorem mem_groupKeys_foldl (vs : List TfVariable) (acc : List String)
    (n : String) (h : n ∈ acc ∨ ∃ v ∈ vs, v.name = n) :
    n ∈ vs.foldl
      (fun acc v => if v.name ∈ acc then acc else acc ++ [v.name]) acc := by
  induction vs generalizing acc with
  | nil =>
    rcases h with h | ⟨v, hv, _⟩
    · simpa using h
    · simp at hv
  | cons v vs ih =>
    simp only [List.foldl_cons]
    apply ih
    rcases h with hacc | ⟨w, hw, hwname⟩
    · left
      by_cases hv : v.name ∈ acc
      · simpa [hv] using hacc
      · simp only [hv, if_false]
        exact List.mem_append_left _ hacc
    · rcases List.mem_cons.mp hw with rfl | htail
      · left
        rw [← hwname]
        by_cases hv : w.name ∈ acc
        · simp only [if_pos hv]
          exact hv
        · simp only [if_neg hv]
          exact List.mem_append_right _ (List.mem_singleton.mpr rfl)
      · right
        exact ⟨w, htail, hwname⟩

theorem name_mem_groupKeys (vs : List TfVariable) (v : TfVariable)
    (hv : v ∈ vs) : v.name ∈ groupKeys vs :=
  mem_groupKeys_foldl vs [] v.name (Or.inr ⟨v, hv, rfl⟩)

theorem name_mem_opListToDictKeys (vs : List TfVariable) (v : TfVariable)
    (hv : v ∈ vs) : v.name ∈ opListToDictKeys vs := by
  induction vs with
  | nil => simp at hv
  | cons w ws ih =>
    unfold opListToDictKeys
    rcases List.mem_cons.mp hv with rfl | htail
    · by_cases hw : v.name ∈ opListToDictKeys ws
      · simp [hw]
      · simp [hw]
    · by_cases hw : w.name ∈ opListToDictKeys ws
      · simpa [hw] using ih htail
      · simp only [hw, if_false]
        exact List.mem_cons_of_mem _ (ih htail)

theorem opListToDictKeys_const (vs : List TfVariable) (n : String)
    (hne : vs ≠ []) (hall : ∀ v ∈ vs, v.name = n) :
    opListToDictKeys vs = [n] := by
  induction vs with
  | nil => exact absurd rfl hne
  | cons v vs ih =>
    cases vs with
    | nil =>
      unfold opListToDictKeys opListToDictKeys
      simp [hall v (List.mem_singleton.mpr rfl)]
    | cons w ws =>
      have hrest : opListToDictKeys (w :: ws) = [n] :=
        ih (List.cons_ne_nil w ws)
          (fun u hu => hall u (List.mem_cons_of_mem v hu))
      unfold opListToDictKeys
      rw [hrest, hall v (List.mem_cons_self v (w :: ws))]
      simp

theorem two_mem_length_ge_two {α : Type} (l : List α) (a b : α)
    (ha : a ∈ l) (hb : b ∈ l) (hab : a ≠ b) : 2 ≤ l.length := by
  match l with
  | [] => simp at ha
  | [x] =>
    rw [List.mem_singleton] at ha hb
    exact absurd (ha.trans hb.symm) hab
  | x :: y :: rest => simp [Nat.succ_le_succ, Nat.le_add_left]

/-! ## Claims about the orchestrator, name inference and errors
(C2, C6, C8, C9, C10) -/

/-- A one-variable graph whose single trainable variable has a vocabulary
entry, together with settings whose selector pattern does not match the
variable's name. -/
def exVar : TfVariable := ⟨"x", 4, 1, none⟩

def exVocabInfo : VocabInfo := mkVocabInfoDefault "new.txt" 3 1 "old.txt"

def exSettingsExcluding : WarmStartSettings :=
  ⟨"ckpt", some "y", [("x", exVocabInfo)], []⟩

/-- Claim C2 is false as stated: variable "x" has a `_VocabInfo` entry, yet
with `vars_to_warmstart` the pattern "y" (which does not match "x") the
variable never enters the collection `_warmstart` iterates over, so no
warm-start action at all is produced for it — it is not warm-started with
vocabulary remapping. -/
theorem vocab_var_excluded_by_selector_counterexample :
    exSettingsExcluding.var_name_to_vocab_info.lookup exVar.name
        = some exVocabInfo ∧
    literalReMatch "y" exVar.name = false ∧
    warmstartActions exSettingsExcluding [exVar] literalReMatch = [] :=
  ⟨rfl, rfl, rfl⟩

/-- Claim C2 (amended): a trainable variable with a `_VocabInfo` entry is
warm-started with vocabulary remapping whenever the selector enumerates it:
always when the selector is the explicit match-nothing sentinel None, and
when the selector is a pattern matching the variable's name (in particular
the match-everything default ".*"); a pattern that excludes the variable from
enumeration prevents its warm-start despite the vocab entry. -/
theorem vocab_vars_warmstarted_when_enumerated
    (settings : WarmStartSettings) (trainableVars : List TfVariable)
    (reMatch : String → String → Bool) (v : TfVariable) (vi : VocabInfo)
    (hv : v ∈ trainableVars)
    (hsel : settings.vars_to_warmstart = none ∨
      ∃ pat, settings.vars_to_warmstart = some pat ∧ reMatch pat v.name = true)
    (hvi : settings.var_name_to_vocab_info.lookup v.name = some vi) :
    ∃ g, WsAction.vocabRemap v.name g vi
        (settings.var_name_to_prev_var_name.lookup v.name)
      ∈ warmstartActions settings trainableVars reMatch := by
  have hcol : v ∈ getCollection trainableVars settings.vars_to_warmstart
      reMatch := by
    rcases hsel with h | ⟨pat, hpat, hmatch⟩
    · rw [h]
      exact hv
    · rw [hpat]
      exact List.mem_filter.mpr ⟨hv, hmatch⟩
  refine ⟨(getCollection trainableVars settings.vars_to_warmstart
      reMatch).filter (fun w => w.name = v.name), ?_⟩
  unfold warmstartActions
  rw [List.mem_flatMap]
  refine ⟨(v.name, (getCollection trainableVars settings.vars_to_warmstart
      reMatch).filter (fun w => w.name = v.name)), ?_, ?_⟩
  · unfold groupVariables
    exact List.mem_map.mpr
      ⟨v.name, name_mem_groupKeys _ v hcol, rfl⟩
  · simp only [hvi]
    exact List.mem_singleton.mpr rfl

def exSettingsNoneSel : WarmStartSettings :=
  ⟨"ckpt", none, [("x", exVocabInfo)], []⟩

theorem vocab_vars_warmstarted_when_enumerated_witness :
    exVar ∈ [exVar] ∧
    exSettingsNoneSel.var_name_to_vocab_info.lookup exVar.name
        = some exVocabInfo ∧
    ∃ g, WsAction.vocabRemap exVar.name g exVocabInfo
        (exSettingsNoneSel.var_name_to_prev_var_name.lookup exVar.name)
      ∈ warmstartActions exSettingsNoneSel [exVar] literalReMatch :=
  ⟨List.mem_singleton.mpr rfl, rfl,
    vocab_vars_warmstarted_when_enumerated exSettingsNoneSel [exVar]
      literalReMatch exVar exVocabInfo (List.mem_singleton.mpr rfl)
      (Or.inl rfl) rfl⟩

/-- Claim C6: with the explicit match-nothing sentinel (None) as selector,
a trainable parameter without a `_VocabInfo` entry receives no warm-start
action at all — neither a restore nor an assignment touches it, so it stays
at its default initializer. -/
theorem none_selector_leaves_plain_vars_untouched
    (settings : WarmStartSettings) (trainableVars : List TfVariable)
    (reMatch : String → String → Bool) (n : String)
    (hsel : settings.vars_to_warmstart = none)
    (hvi : settings.var_name_to_vocab_info.lookup n = none) :
    ∀ a ∈ warmstartActions settings trainableVars reMatch,
      a.varName ≠ n := by
  intro a ha hname
  unfold warmstartActions at ha
  rw [List.mem_flatMap] at ha
  rcases ha with ⟨p, _, hap⟩
  simp only [hsel, optStrTruthy] at hap
  cases hlk : settings.var_name_to_vocab_info.lookup p.1 with
  | some vi =>
    rw [hlk] at hap
    have haction : a = WsAction.vocabRemap p.1 p.2 vi
        (settings.var_name_to_prev_var_name.lookup p.1) := by
      simpa using hap
    have hp1 : p.1 = n := by
      rw [haction] at hname
      exact hname
    rw [hp1, hvi] at hlk
    exact Option.noConfusion hlk
  | none =>
    rw [hlk] at hap
    simp at hap

theorem none_selector_leaves_plain_vars_untouched_witness :
    (⟨"ckpt", none, [], []⟩ : WarmStartSettings).vars_to_warmstart = none ∧
    (⟨"ckpt", none, [], []⟩ :
        WarmStartSettings).var_name_to_vocab_info.lookup "x" = none ∧
    ∀ a ∈ warmstartActions ⟨"ckpt", none, [], []⟩ [exVar] literalReMatch,
      a.varName ≠ "x" :=
  ⟨rfl, rfl,
    none_selector_leaves_plain_vars_untouched ⟨"ckpt", none, [], []⟩ [exVar]
      literalReMatch "x" rfl rfl⟩

/-- Claim C8: constructing `_WarmStartSettings` with an absent (None) or
empty checkpoint source raises a ValueError, and calling
`_warmstart_var_with_vocab` with any of the four required vocab-remap
arguments falsy (empty path / zero size) yields a ValueError with no
assignment computed (the validation is the first statement of the function
and the error result carries no assignments). -/
theorem missing_required_args_raise
    (sel : Option String) (vocab : Option (List (String × VocabInfo)))
    (prev : Option (List (String × String))) (env : CkptEnv)
    (var : List TfVariable) (cvp : String) (cvs : Int) (ck pv : String)
    (pvs : Int) (oov : Nat) (ptn : Option String)
    (backup : Option (Nat → List Int)) :
    (∃ msg, mkWarmStartSettings none sel vocab prev
        = .error (.valueError msg)) ∧
    (∃ msg, mkWarmStartSettings (some "") sel vocab prev
        = .error (.valueError msg)) ∧
    (cvp = "" ∨ cvs = 0 ∨ ck = "" ∨ pv = "" →
      ∃ msg, warmstartVarWithVocab env var cvp cvs ck pv pvs oov ptn backup
        = .error (.valueError msg)) := by
  refine ⟨?_, ?_, ?_⟩
  · have hgoal : mkWarmStartSettings none sel vocab prev = .error (.valueError
        "ckpt_to_initialize_from MUST be set in WarmStartSettings") := by
      unfold mkWarmStartSettings
      rw [if_pos (Or.inl rfl)]
    exact ⟨_, hgoal⟩
  · have hgoal : mkWarmStartSettings (some "") sel vocab prev
        = .error (.valueError
          "ckpt_to_initialize_from MUST be set in WarmStartSettings") := by
      unfold mkWarmStartSettings
      rw [if_pos (Or.inr rfl)]
    exact ⟨_, hgoal⟩
  · intro h
    have hgoal : warmstartVarWithVocab env var cvp cvs ck pv pvs oov ptn backup
        = .error (.valueError
          "Invalid args: Must provide all of current_vocab_path, current_vocab_size, prev_ckpt, prev_vocab_path.") := by
      unfold warmstartVarWithVocab
      rw [if_pos h]
    exact ⟨_, hgoal⟩

/-- A trivial external environment for witnesses. -/
def trivialEnv : CkptEnv := ⟨fun _ => [], fun _ _ => []⟩

theorem missing_required_args_raise_witness :
    (("" : String) = "" ∨ (5 : Int) = 0 ∨ ("c" : String) = ""
        ∨ ("ov" : String) = "") ∧
    (∃ msg, warmstartVarWithVocab trivialEnv [] "" 5 "c" "ov" (-1) 0 none none
        = .error (.valueError msg)) ∧
    (∃ msg, mkWarmStartSettings none none none none
        = .error (.valueError msg)) ∧
    (∃ msg, mkWarmStartSettings (some "") none none none
        = .error (.valueError msg)) :=
  ⟨Or.inl rfl,
    (missing_required_args_raise none none none trivialEnv [] "" 5 "c" "ov"
        (-1) 0 none none).2.2 (Or.inl rfl),
    (missing_required_args_raise none none none trivialEnv [] "" 5 "c" "ov"
        (-1) 0 none none).1,
    (missing_required_args_raise none none none trivialEnv [] "" 5 "c" "ov"
        (-1) 0 none none).2.1⟩

/-- Claim C9: `_infer_var_name` on a list of slices fails with a TypeError
when the slices do not all carry the same logical variable name (the
name-to-variable dictionary then has more than one key), and resolves to the
single shared logical name when they do. -/
theorem infer_var_name_of_slices (var : List TfVariable) (n : String) :
    ((∃ v₁ ∈ var, ∃ v₂ ∈ var, v₁.name ≠ v₂.name) →
      ∃ msg, inferVarName var = .error (.typeError msg)) ∧
    (var ≠ [] → (∀ v ∈ var, v.name = n) → inferVarName var = .ok n) := by
  constructor
  · rintro ⟨v₁, h₁, v₂, h₂, hne⟩
    have hm₁ := name_mem_opListToDictKeys var v₁ h₁
    have hm₂ := name_mem_opListToDictKeys var v₂ h₂
    have hlen : 2 ≤ (opListToDictKeys var).length :=
      two_mem_length_ge_two _ _ _ hm₁ hm₂ hne
    have hgoal : inferVarName var = .error (.typeError
        "var passed as arg violates the constraints") := by
      unfold inferVarName
      rw [if_pos (by omega)]
    exact ⟨_, hgoal⟩
  · intro hne hall
    unfold inferVarName
    rw [opListToDictKeys_const var n hne hall]
    rfl

theorem infer_var_name_of_slices_witness :
    ((∃ v₁ ∈ [(⟨"a", 1, 1, none⟩ : TfVariable), ⟨"b", 1, 1, none⟩],
        ∃ v₂ ∈ [(⟨"a", 1, 1, none⟩ : TfVariable), ⟨"b", 1, 1, none⟩],
        v₁.name ≠ v₂.name) ∧
      ∃ msg, inferVarName [⟨"a", 1, 1, none⟩, ⟨"b", 1, 1, none⟩]
          = .error (.typeError msg)) ∧
    (([(⟨"w", 2, 1, some 0⟩ : TfVariable), ⟨"w", 2, 1, some 2⟩]
          ≠ ([] : List TfVariable)) ∧
      inferVarName [⟨"w", 2, 1, some 0⟩, ⟨"w", 2, 1, some 2⟩] = .ok "w") :=
  ⟨⟨by decide,
      (infer_var_name_of_slices [⟨"a", 1, 1, none⟩, ⟨"b", 1, 1, none⟩] "a").1
        (by decide)⟩,
    ⟨by decide,
      (infer_var_name_of_slices [⟨"w", 2, 1, some 0⟩, ⟨"w", 2, 1, some 2⟩]
          "w").2 (by decide) (by decide)⟩⟩

/-- Claim C10: an empty-string previous tensor name behaves exactly like an
absent one, in both the plain restore and the vocabulary warm-start: the
checkpoint tensor looked up is the variable's own inferred current name,
never the empty string. -/
theorem empty_prev_name_falls_back_to_current
    (var : List TfVariable) (ckpt : String) (env : CkptEnv) (cvp : String)
    (cvs : Int) (ck pv : String) (pvs : Int) (oov : Nat)
    (backup : Option (Nat → List Int)) :
    warmstartVar var ckpt (some "") = warmstartVar var ckpt none ∧
    (∀ n, inferVarName var = .ok n →
      warmstartVar var ckpt (some "") = .ok (ckpt, n)) ∧
    warmstartVarWithVocab env var cvp cvs ck pv pvs oov (some "") backup
      = warmstartVarWithVocab env var cvp cvs ck pv pvs oov none backup := by
  have hres : resolvePrevTensorName (some "") var
      = resolvePrevTensorName none var := by
    simp [resolvePrevTensorName]
  refine ⟨?_, ?_, ?_⟩
  · unfold warmstartVar
    congr 1
  · intro n h
    unfold warmstartVar
    rw [h]
    simp [Except.map]
  · unfold warmstartVarWithVocab
    rw [hres]

theorem empty_prev_name_falls_back_to_current_witness :
    inferVarName [(⟨"w", 2, 1, none⟩ : TfVariable)] = .ok "w" ∧
    warmstartVar [(⟨"w", 2, 1, none⟩ : TfVariable)] "c" (some "")
      = .ok ("c", "w") :=
  ⟨rfl,
    (empty_prev_name_falls_back_to_current [⟨"w", 2, 1, none⟩] "c" trivialEnv
        "nv" 3 "c" "ov" (-1) 0 none).2.1 "w" rfl⟩
